import Mathlib

/-!
Verification of the face-selection, UV-projection and pipeline-driver logic
of `blender_bash2_V2.py` (multi-camera texture mapping tool).

The development has three parts, each a shallow embedding of one slice of
the source:

* a geometry model over ℚ of `FaceSelector.select_faces_by_criteria`
  (exact rational arithmetic stands in for the script's floats; every
  comparison the code performs is order-theoretic, so ℚ keeps the model
  decidable and executable);
* a model over ℝ of the per-vertex UV computation inside
  `UVProjector.project_from_view_manual` (this part uses `math.atan` and
  `math.tan`, so it lives in ℝ with `Real.arctan` / `Real.tan`);
* an event-trace model of the control flow of `TextureMapper.process`,
  `TextureMapper.process_camera_view` and `main` (the external Blender
  operators — file system, scene ops, material nodes — are abstracted
  into an environment of outcomes, since they are outside the script).
-/

/-! ## Geometry primitives (mathutils.Vector / Matrix) -/

/-- A 3-component vector, the model of `mathutils.Vector` as used by the
script (vertex coordinates, normals, translations). -/
structure Vec3 (α : Type) where
  x : α
  y : α
  z : α
deriving DecidableEq

/-- Component access `v[i]`, as in `(matrix_world @ v.co)[coord_index]`. -/
def Vec3.nth {α : Type} (v : Vec3 α) (i : Fin 3) : α :=
  if i.val = 0 then v.x else if i.val = 1 then v.y else v.z

/-- Componentwise vector addition. -/
def Vec3.add {α : Type} [CommRing α] (a b : Vec3 α) : Vec3 α :=
  ⟨a.x + b.x, a.y + b.y, a.z + b.z⟩

/-- Dot product of two 3-vectors. -/
def Vec3.dot {α : Type} [CommRing α] (a b : Vec3 α) : α :=
  a.x * b.x + a.y * b.y + a.z * b.z

/-- A 3×3 matrix given by rows: the model of `matrix_world.to_3x3()`,
the linear (rotation/scale) block of an object's world matrix. -/
structure Mat3 (α : Type) where
  r0 : Vec3 α
  r1 : Vec3 α
  r2 : Vec3 α
deriving DecidableEq

/-- Matrix-vector product, as in `matrix_world.to_3x3() @ face.normal`. -/
def Mat3.mulVec {α : Type} [CommRing α] (M : Mat3 α) (v : Vec3 α) : Vec3 α :=
  ⟨M.r0.dot v, M.r1.dot v, M.r2.dot v⟩

/-- The model of a 4×4 object-to-world matrix `obj.matrix_world` as it acts
on points: a linear 3×3 block plus a translation. -/
structure Transform (α : Type) where
  linear : Mat3 α
  translation : Vec3 α
deriving DecidableEq

/-- `matrix_world @ v.co`: apply the full transform to a point. -/
def Transform.apply {α : Type} [CommRing α] (T : Transform α) (v : Vec3 α) : Vec3 α :=
  (T.linear.mulVec v).add T.translation

/-! ## Mesh model (bmesh as the selector sees it) -/

/-- A bmesh face: the vertex coordinates it references, its local-space
normal, and its selection flag `face.select`. -/
structure Face (α : Type) where
  verts : List (Vec3 α)
  normal : Vec3 α
  select : Bool
deriving DecidableEq

/-- The bmesh data `select_faces_by_criteria` reads: all vertices of the
mesh (`bm.verts`) and all faces (`bm.faces`). -/
structure BMesh (α : Type) where
  verts : List (Vec3 α)
  faces : List (Face α)
deriving DecidableEq

/-- The Blender object handed to the selector: its mesh data plus its
`matrix_world`. -/
structure Obj (α : Type) where
  mesh : BMesh α
  matrix_world : Transform α
deriving DecidableEq

/-- `SelectionParams` from the script. `coord` is `Fin 3` per the data
model's invariant (0=X, 1=Y, 2=Z); `type` stays a string because the code
dispatches on the raw string, with a catch-all branch for unknown values. -/
structure SelectionParams where
  type : String
  coord : Fin 3
  epsilon : ℚ
  normal_direction : ℤ
deriving DecidableEq

/-! ## FaceSelector.select_faces_by_criteria -/

/-- The normal-direction test of the selector, line for line:
`(normal_direction > 0 and normal_world[coord_index] > 0) or
 (normal_direction < 0 and normal_world[coord_index] < 0)`. -/
def normalDirOK (nd : ℤ) (nw : ℚ) : Bool :=
  (decide (0 < nd) && decide (0 < nw)) || (decide (nd < 0) && decide (nw < 0))

/-- The per-face body of the `max_coord` branch: deselected input face in,
(face with final flag, contribution to `selected_count`) out. -/
def checkFaceMax (mw : Transform ℚ) (ci : Fin 3) (eps maxCoord : ℚ) (nd : ℤ)
    (f : Face ℚ) : Face ℚ × ℕ :=
  if f.verts.all (fun v => decide (maxCoord - eps ≤ (mw.apply v).nth ci)) then
    if nd ≠ 0 then
      if normalDirOK nd ((mw.linear.mulVec f.normal).nth ci) then
        ({ f with select := true }, 1)
      else (f, 0)
    else ({ f with select := true }, 1)
  else (f, 0)

/-- The per-face body of the `min_coord` branch (`coord <= min_coord + epsilon`). -/
def checkFaceMin (mw : Transform ℚ) (ci : Fin 3) (eps minCoord : ℚ) (nd : ℤ)
    (f : Face ℚ) : Face ℚ × ℕ :=
  if f.verts.all (fun v => decide ((mw.apply v).nth ci ≤ minCoord + eps)) then
    if nd ≠ 0 then
      if normalDirOK nd ((mw.linear.mulVec f.normal).nth ci) then
        ({ f with select := true }, 1)
      else (f, 0)
    else ({ f with select := true }, 1)
  else (f, 0)

/-- `FaceSelector.select_faces_by_criteria`. It first clears every face's
selection flag, then dispatches on `selection_params.type`. For
`max_coord` / `min_coord` the extremum of the chosen world coordinate over
all mesh vertices is taken; Python's `max()` / `min()` over the empty
vertex sequence raises `ValueError`, modelled as `Except.error`. The
result is the updated object together with the returned `selected_count`. -/
def selectFacesByCriteria (obj : Obj ℚ) (p : SelectionParams) :
    Except String (Obj ℚ × ℕ) :=
  let mw := obj.matrix_world
  let faces0 := obj.mesh.faces.map (fun f => { f with select := false })
  if p.type = "max_coord" then
    match (obj.mesh.verts.map (fun v => (mw.apply v).nth p.coord)).max? with
    | none => .error "max() arg is an empty sequence"
    | some maxCoord =>
      let checked := faces0.map
        (checkFaceMax mw p.coord p.epsilon maxCoord p.normal_direction)
      .ok ({ obj with mesh := { obj.mesh with faces := checked.map Prod.fst } },
           (checked.map Prod.snd).sum)
  else if p.type = "min_coord" then
    match (obj.mesh.verts.map (fun v => (mw.apply v).nth p.coord)).min? with
    | none => .error "min() arg is an empty sequence"
    | some minCoord =>
      let checked := faces0.map
        (checkFaceMin mw p.coord p.epsilon minCoord p.normal_direction)
      .ok ({ obj with mesh := { obj.mesh with faces := checked.map Prod.fst } },
           (checked.map Prod.snd).sum)
  else
    .ok ({ obj with mesh := { obj.mesh with faces := faces0 } }, 0)

/-! ## Spec-side selection predicates

These restate the specification's wording of the selection criteria; the
theorems below compare `selectFacesByCriteria` against them. -/

/-- World coordinates of all mesh vertices on axis `ci`
(step 1 and 2 of the spec's selector algorithm read these). -/
def worldCoords (obj : Obj ℚ) (ci : Fin 3) : List ℚ :=
  obj.mesh.verts.map (fun v => (obj.matrix_world.apply v).nth ci)

/-- The spec's global extremum: `max` of the chosen world coordinate over
all vertices for `max_coord`, `min` for `min_coord`, undefined otherwise. -/
def extremum? (obj : Obj ℚ) (p : SelectionParams) : Option ℚ :=
  if p.type = "max_coord" then (worldCoords obj p.coord).max?
  else if p.type = "min_coord" then (worldCoords obj p.coord).min?
  else none

/-- The spec's candidate predicate: every vertex of the face has its world
coordinate on the chosen axis within `epsilon` of the extremum
(`coord ≥ ext − ε` for `max_coord`, `coord ≤ ext + ε` for `min_coord`). -/
def isCandidate (mw : Transform ℚ) (p : SelectionParams) (ext : ℚ) (f : Face ℚ) : Bool :=
  if p.type = "max_coord" then
    f.verts.all (fun v => decide (ext - p.epsilon ≤ (mw.apply v).nth p.coord))
  else
    f.verts.all (fun v => decide ((mw.apply v).nth p.coord ≤ ext + p.epsilon))

/-- The spec's normal filter: with `normal_direction = 0` every face
passes; otherwise the face's world-space normal component on the chosen
axis must be strictly positive (for positive direction) or strictly
negative (for negative direction). -/
def passesNormalFilter (mw : Transform ℚ) (p : SelectionParams) (f : Face ℚ) : Bool :=
  if p.normal_direction = 0 then true
  else normalDirOK p.normal_direction ((mw.linear.mulVec f.normal).nth p.coord)

/-- A face's final selection flag according to the spec: candidate and
passing the normal filter. -/
def selectedFlag (mw : Transform ℚ) (p : SelectionParams) (ext : ℚ) (f : Face ℚ) : Bool :=
  isCandidate mw p ext f && passesNormalFilter mw p f

/-! ## Characterization of the selector -/

lemma checkFaceMax_spec (mw : Transform ℚ) (p : SelectionParams)
    (hty : p.type = "max_coord") (ext : ℚ) (g : Face ℚ) :
    checkFaceMax mw p.coord p.epsilon ext p.normal_direction { g with select := false } =
      ({ g with select := selectedFlag mw p ext g },
       if selectedFlag mw p ext g then 1 else 0) := by
  obtain ⟨vs, nr, sel⟩ := g
  unfold checkFaceMax selectedFlag isCandidate passesNormalFilter
  rw [if_pos hty]
  dsimp only
  generalize (vs.all fun v => decide (ext - p.epsilon ≤ (mw.apply v).nth p.coord)) = b1
  generalize normalDirOK p.normal_direction ((mw.linear.mulVec nr).nth p.coord) = b3
  by_cases h2 : p.normal_direction = 0 <;> cases b1 <;> cases b3 <;> simp [h2]

lemma checkFaceMin_spec (mw : Transform ℚ) (p : SelectionParams)
    (hty : p.type = "min_coord") (ext : ℚ) (g : Face ℚ) :
    checkFaceMin mw p.coord p.epsilon ext p.normal_direction { g with select := false } =
      ({ g with select := selectedFlag mw p ext g },
       if selectedFlag mw p ext g then 1 else 0) := by
  obtain ⟨vs, nr, sel⟩ := g
  unfold checkFaceMin selectedFlag isCandidate passesNormalFilter
  have hty' : p.type ≠ "max_coord" := by rw [hty]; decide
  rw [if_neg hty']
  dsimp only
  generalize (vs.all fun v => decide ((mw.apply v).nth p.coord ≤ ext + p.epsilon)) = b1
  generalize normalDirOK p.normal_direction ((mw.linear.mulVec nr).nth p.coord) = b3
  by_cases h2 : p.normal_direction = 0 <;> cases b1 <;> cases b3 <;> simp [h2]

lemma sum_map_ite_one (q : Face ℚ → Bool) (l : List (Face ℚ)) :
    (l.map (fun f => if q f then (1 : ℕ) else 0)).sum = l.countP q := by
  induction l with
  | nil => rfl
  | cons a l ih =>
      by_cases h : q a <;> simp [List.countP_cons, h, ih, Nat.add_comm]

lemma mapCheckMax_eq (mw : Transform ℚ) (p : SelectionParams)
    (hty : p.type = "max_coord") (ext : ℚ) (l : List (Face ℚ)) :
    (l.map (fun f => { f with select := false })).map
        (checkFaceMax mw p.coord p.epsilon ext p.normal_direction) =
      l.map (fun g => ({ g with select := selectedFlag mw p ext g },
        if selectedFlag mw p ext g then (1 : ℕ) else 0)) := by
  induction l with
  | nil => rfl
  | cons a l ih => simp only [List.map_cons, ih, checkFaceMax_spec mw p hty ext a]

lemma mapCheckMin_eq (mw : Transform ℚ) (p : SelectionParams)
    (hty : p.type = "min_coord") (ext : ℚ) (l : List (Face ℚ)) :
    (l.map (fun f => { f with select := false })).map
        (checkFaceMin mw p.coord p.epsilon ext p.normal_direction) =
      l.map (fun g => ({ g with select := selectedFlag mw p ext g },
        if selectedFlag mw p ext g then (1 : ℕ) else 0)) := by
  induction l with
  | nil => rfl
  | cons a l ih => simp only [List.map_cons, ih, checkFaceMin_spec mw p hty ext a]

/-- What the selector returns on `max_coord` when the mesh has vertices:
the faces carrying the spec flag, and the count of flagged faces. -/
lemma select_spec_max (obj : Obj ℚ) (p : SelectionParams)
    (hty : p.type = "max_coord") (ext : ℚ)
    (hext : (worldCoords obj p.coord).max? = some ext) :
    selectFacesByCriteria obj p =
      Except.ok
        ({ obj with mesh := { obj.mesh with faces :=
            (obj.mesh.faces.map (fun f =>
              { f with select := selectedFlag obj.matrix_world p ext f })) } },
         obj.mesh.faces.countP (fun f => selectedFlag obj.matrix_world p ext f)) := by
  unfold worldCoords at hext
  simp only [selectFacesByCriteria]
  rw [if_pos hty, hext]
  dsimp only
  rw [mapCheckMax_eq obj.matrix_world p hty ext]
  rw [List.map_map, List.map_map]
  exact congrArg Except.ok (congrArg _ (sum_map_ite_one _ _))

/-- What the selector returns on `min_coord` when the mesh has vertices. -/
lemma select_spec_min (obj : Obj ℚ) (p : SelectionParams)
    (hty : p.type = "min_coord") (ext : ℚ)
    (hext : (worldCoords obj p.coord).min? = some ext) :
    selectFacesByCriteria obj p =
      Except.ok
        ({ obj with mesh := { obj.mesh with faces :=
            (obj.mesh.faces.map (fun f =>
              { f with select := selectedFlag obj.matrix_world p ext f })) } },
         obj.mesh.faces.countP (fun f => selectedFlag obj.matrix_world p ext f)) := by
  unfold worldCoords at hext
  have hty' : p.type ≠ "max_coord" := by rw [hty]; decide
  simp only [selectFacesByCriteria]
  rw [if_neg hty', if_pos hty, hext]
  dsimp only
  rw [mapCheckMin_eq obj.matrix_world p hty ext]
  rw [List.map_map, List.map_map]
  exact congrArg Except.ok (congrArg _ (sum_map_ite_one _ _))

/-- What the selector returns for `custom` or any unrecognized type: all
faces deselected, count 0. -/
lemma select_spec_other (obj : Obj ℚ) (p : SelectionParams)
    (h1 : p.type ≠ "max_coord") (h2 : p.type ≠ "min_coord") :
    selectFacesByCriteria obj p =
      Except.ok
        ({ obj with mesh := { obj.mesh with faces :=
            (obj.mesh.faces.map (fun f => { f with select := false })) } }, 0) := by
  simp only [selectFacesByCriteria]
  rw [if_neg h1, if_neg h2]

/-- Characterization for either extremum mode, keyed on `extremum?`. -/
lemma select_spec_extremum (obj : Obj ℚ) (p : SelectionParams) (ext : ℚ)
    (hext : extremum? obj p = some ext) :
    selectFacesByCriteria obj p =
      Except.ok
        ({ obj with mesh := { obj.mesh with faces :=
            (obj.mesh.faces.map (fun f =>
              { f with select := selectedFlag obj.matrix_world p ext f })) } },
         obj.mesh.faces.countP (fun f => selectedFlag obj.matrix_world p ext f)) := by
  unfold extremum? at hext
  by_cases h1 : p.type = "max_coord"
  · rw [if_pos h1] at hext
    exact select_spec_max obj p h1 ext hext
  · rw [if_neg h1] at hext
    by_cases h2 : p.type = "min_coord"
    · rw [if_pos h2] at hext
      exact select_spec_min obj p h2 ext hext
    · rw [if_neg h2] at hext
      exact absurd hext (by simp)

/-- The face stored at index `i` after a successful extremum selection is
the input face with its flag set per the spec predicate. -/
lemma select_flag_at (obj : Obj ℚ) (p : SelectionParams) (ext : ℚ)
    (hext : extremum? obj p = some ext) (obj' : Obj ℚ) (n : ℕ)
    (hok : selectFacesByCriteria obj p = Except.ok (obj', n)) (i : ℕ) :
    obj'.mesh.faces[i]? = (obj.mesh.faces[i]?).map
      (fun f => { f with select := selectedFlag obj.matrix_world p ext f }) := by
  rw [select_spec_extremum obj p ext hext] at hok
  simp only [Except.ok.injEq, Prod.mk.injEq] at hok
  obtain ⟨ho, -⟩ := hok
  rw [← ho]
  exact List.getElem?_map _ _ _

/-- When a selection succeeds but `extremum?` is undefined, the type was
neither `max_coord` nor `min_coord`. -/
lemma select_ok_cases (obj : Obj ℚ) (p : SelectionParams) (obj' : Obj ℚ) (n : ℕ)
    (hok : selectFacesByCriteria obj p = Except.ok (obj', n)) :
    (∃ ext, extremum? obj p = some ext) ∨
      (p.type ≠ "max_coord" ∧ p.type ≠ "min_coord") := by
  by_cases h1 : p.type = "max_coord"
  · left
    cases hm : (worldCoords obj p.coord).max? with
    | none =>
        have herr : selectFacesByCriteria obj p =
            Except.error "max() arg is an empty sequence" := by
          unfold worldCoords at hm
          simp only [selectFacesByCriteria]
          rw [if_pos h1, hm]
        rw [herr] at hok
        exact absurd hok (by simp)
    | some ext =>
        exact ⟨ext, by unfold extremum?; rw [if_pos h1]; exact hm⟩
  · by_cases h2 : p.type = "min_coord"
    · left
      cases hm : (worldCoords obj p.coord).min? with
      | none =>
          have herr : selectFacesByCriteria obj p =
              Except.error "min() arg is an empty sequence" := by
            unfold worldCoords at hm
            simp only [selectFacesByCriteria]
            rw [if_neg h1, if_pos h2, hm]
          rw [herr] at hok
          exact absurd hok (by simp)
      | some ext =>
          exact ⟨ext, by unfold extremum?; rw [if_neg h1, if_pos h2]; exact hm⟩
    · exact Or.inr ⟨h1, h2⟩

/-- C1: for every mesh and `max_coord` criteria (and symmetrically
`min_coord`), `select_faces_by_criteria` leaves selected exactly the faces
all of whose vertices have their world coordinate on the chosen axis within
`epsilon` of the global extremum over all mesh vertices and which pass the
active normal filter; the result does not depend on the faces' incoming
selection flags (prior selection is cleared, selection is not additive). -/
theorem c1_selection_exact (obj : Obj ℚ) (p : SelectionParams) (ext : ℚ)
    (hext : extremum? obj p = some ext) :
    selectFacesByCriteria obj p =
      Except.ok
        ({ obj with mesh := { obj.mesh with faces :=
            (obj.mesh.faces.map (fun f =>
              { f with select := isCandidate obj.matrix_world p ext f &&
                  passesNormalFilter obj.matrix_world p f })) } },
         obj.mesh.faces.countP (fun f => isCandidate obj.matrix_world p ext f &&
           passesNormalFilter obj.matrix_world p f)) := by
  have h := select_spec_extremum obj p ext hext
  unfold selectedFlag at h
  exact h

/-- C9: on a mesh with zero vertices, the `max_coord` / `min_coord`
selector fails with a raised error (Python's `max()` / `min()` raise
`ValueError` on an empty sequence) rather than returning a selection. -/
theorem c9_empty_mesh_error (obj : Obj ℚ) (p : SelectionParams)
    (hv : obj.mesh.verts = [])
    (hty : p.type = "max_coord" ∨ p.type = "min_coord") :
    ∃ msg, selectFacesByCriteria obj p = Except.error msg := by
  rcases hty with h | h
  · refine ⟨"max() arg is an empty sequence", ?_⟩
    simp only [selectFacesByCriteria]
    rw [if_pos h, hv]
    rfl
  · refine ⟨"min() arg is an empty sequence", ?_⟩
    have h' : p.type ≠ "max_coord" := by rw [h]; decide
    simp only [selectFacesByCriteria]
    rw [if_neg h', if_pos h, hv]
    rfl

/-- C10: whenever `select_faces_by_criteria` returns, the returned count
equals the number of faces left selected on the mesh; for `custom` or any
unrecognized selection type it returns 0 and leaves every face deselected. -/
theorem c10_count_matches_selection (obj : Obj ℚ) (p : SelectionParams)
    (obj' : Obj ℚ) (n : ℕ)
    (hok : selectFacesByCriteria obj p = Except.ok (obj', n)) :
    n = obj'.mesh.faces.countP (fun f => f.select) ∧
    (p.type ≠ "max_coord" → p.type ≠ "min_coord" →
      n = 0 ∧ ∀ f ∈ obj'.mesh.faces, f.select = false) := by
  rcases select_ok_cases obj p obj' n hok with ⟨ext, hext⟩ | ⟨h1, h2⟩
  · have hty : p.type = "max_coord" ∨ p.type = "min_coord" := by
      unfold extremum? at hext
      by_cases h1 : p.type = "max_coord"
      · exact Or.inl h1
      · rw [if_neg h1] at hext
        by_cases h2 : p.type = "min_coord"
        · exact Or.inr h2
        · rw [if_neg h2] at hext
          exact absurd hext (by simp)
    constructor
    · rw [select_spec_extremum obj p ext hext] at hok
      simp only [Except.ok.injEq, Prod.mk.injEq] at hok
      obtain ⟨ho, hn⟩ := hok
      rw [← hn, ← ho]
      rw [show ({ obj with mesh := { obj.mesh with faces :=
          (obj.mesh.faces.map (fun f =>
            { f with select := selectedFlag obj.matrix_world p ext f })) } } : Obj ℚ).mesh.faces =
          obj.mesh.faces.map (fun f =>
            { f with select := selectedFlag obj.matrix_world p ext f }) from rfl]
      rw [List.countP_map]
      rfl
    · intro hA hB
      rcases hty with h | h
      · exact absurd h hA
      · exact absurd h hB
  · rw [select_spec_other obj p h1 h2] at hok
    simp only [Except.ok.injEq, Prod.mk.injEq] at hok
    obtain ⟨ho, hn⟩ := hok
    constructor
    · rw [← hn, ← ho]
      rw [show ({ obj with mesh := { obj.mesh with faces :=
          (obj.mesh.faces.map (fun f => { f with select := false })) } } : Obj ℚ).mesh.faces =
          obj.mesh.faces.map (fun f => { f with select := false }) from rfl]
      rw [List.countP_map]
      rw [show ((fun f : Face ℚ => f.select) ∘ fun f : Face ℚ =>
          { f with select := false }) = fun _ : Face ℚ => false from rfl]
      simp
    · intro _ _
      refine ⟨hn.symm, ?_⟩
      rw [← ho]
      intro f hf
      rw [show ({ obj with mesh := { obj.mesh with faces :=
          (obj.mesh.faces.map (fun f => { f with select := false })) } } : Obj ℚ).mesh.faces =
          obj.mesh.faces.map (fun f => { f with select := false }) from rfl] at hf
      obtain ⟨g, -, rfl⟩ := List.mem_map.mp hf
      rfl

/-! ## Concrete fixtures for the selection witnesses -/

/-- Identity object-to-world transform for the concrete witnesses. -/
def idTransform : Transform ℚ :=
  ⟨⟨⟨1, 0, 0⟩, ⟨0, 1, 0⟩, ⟨0, 0, 1⟩⟩, ⟨0, 0, 0⟩⟩

/-- A face at the top of the witness mesh (z = 2), normal +Z, deselected. -/
def topFaceW : Face ℚ := ⟨[⟨0, 0, 2⟩], ⟨0, 0, 1⟩, false⟩

/-- A face at the bottom (z = 0) that is selected before the call. -/
def lowFaceW : Face ℚ := ⟨[⟨0, 0, 0⟩], ⟨0, 0, 1⟩, true⟩

/-- Two-face witness mesh: vertices at z = 2 and z = 0. -/
def witnessObj : Obj ℚ := ⟨⟨[⟨0, 0, 2⟩, ⟨0, 0, 0⟩], [topFaceW, lowFaceW]⟩, idTransform⟩

/-- `max_coord` on Z with tolerance 1/2 and positive normal filter. -/
def maxZParams : SelectionParams := ⟨"max_coord", 2, 1/2, 1⟩

/-- `custom` selection parameters. -/
def customParams : SelectionParams := ⟨"custom", 2, 1/2, 1⟩

/-- Witness for C1: on the two-face mesh the global maximum Z is 2 and the
selector returns exactly the spec-predicate selection. -/
theorem c1_selection_exact_witness :
    extremum? witnessObj maxZParams = some 2 ∧
    selectFacesByCriteria witnessObj maxZParams =
      Except.ok
        ({ witnessObj with mesh := { witnessObj.mesh with faces :=
            (witnessObj.mesh.faces.map (fun f =>
              { f with select := isCandidate witnessObj.matrix_world maxZParams 2 f &&
                  passesNormalFilter witnessObj.matrix_world maxZParams f })) } },
         witnessObj.mesh.faces.countP (fun f =>
           isCandidate witnessObj.matrix_world maxZParams 2 f &&
             passesNormalFilter witnessObj.matrix_world maxZParams f)) := by
  have hext : extremum? witnessObj maxZParams = some 2 := by
    norm_num [extremum?, worldCoords, witnessObj, maxZParams, idTransform,
      Transform.apply, Mat3.mulVec, Vec3.dot, Vec3.add, Vec3.nth, List.max?, max_def]
  exact ⟨hext, c1_selection_exact witnessObj maxZParams 2 hext⟩

/-- A mesh with zero vertices but one (degenerate) face. -/
def emptyMeshObj : Obj ℚ := ⟨⟨[], [⟨[], ⟨0, 0, 1⟩, true⟩]⟩, idTransform⟩

/-- Witness for C9: the selector errors out on the zero-vertex mesh. -/
theorem c9_empty_mesh_error_witness :
    emptyMeshObj.mesh.verts = [] ∧
    ∃ msg, selectFacesByCriteria emptyMeshObj maxZParams = Except.error msg :=
  ⟨rfl, c9_empty_mesh_error emptyMeshObj maxZParams rfl (Or.inl rfl)⟩

/-- Witness for C10 at selection type `custom`: the call returns 0 with all
faces deselected, and the count matches the selected faces of the result. -/
theorem c10_count_matches_selection_witness :
    selectFacesByCriteria witnessObj customParams =
      Except.ok
        (⟨⟨[⟨0, 0, 2⟩, ⟨0, 0, 0⟩],
           [⟨[⟨0, 0, 2⟩], ⟨0, 0, 1⟩, false⟩, ⟨[⟨0, 0, 0⟩], ⟨0, 0, 1⟩, false⟩]⟩,
          idTransform⟩, 0) ∧
    (0 : ℕ) =
      (⟨⟨[⟨0, 0, 2⟩, ⟨0, 0, 0⟩],
         [⟨[⟨0, 0, 2⟩], ⟨0, 0, 1⟩, false⟩, ⟨[⟨0, 0, 0⟩], ⟨0, 0, 1⟩, false⟩]⟩,
        idTransform⟩ : Obj ℚ).mesh.faces.countP (fun f => f.select) := by
  have hok : selectFacesByCriteria witnessObj customParams =
      Except.ok
        (⟨⟨[⟨0, 0, 2⟩, ⟨0, 0, 0⟩],
           [⟨[⟨0, 0, 2⟩], ⟨0, 0, 1⟩, false⟩, ⟨[⟨0, 0, 0⟩], ⟨0, 0, 1⟩, false⟩]⟩,
          idTransform⟩, 0) := by
    rw [select_spec_other witnessObj customParams (by decide) (by decide)]
    norm_num [witnessObj, topFaceW, lowFaceW, idTransform]
  exact ⟨hok, (c10_count_matches_selection witnessObj customParams _ 0 hok).1⟩

/-! ## Monotonicity and normal-filter lemmas -/

lemma isCandidate_mono (mw : Transform ℚ) (p : SelectionParams) (t1 t2 : ℚ)
    (h12 : t1 ≤ t2) (ext : ℚ) (f : Face ℚ) :
    isCandidate mw { p with epsilon := t1 } ext f = true →
    isCandidate mw { p with epsilon := t2 } ext f = true := by
  unfold isCandidate
  dsimp only
  by_cases hty : p.type = "max_coord"
  · rw [if_pos hty, if_pos hty]
    simp only [List.all_eq_true, decide_eq_true_eq]
    intro h v hv
    have := h v hv
    linarith
  · rw [if_neg hty, if_neg hty]
    simp only [List.all_eq_true, decide_eq_true_eq]
    intro h v hv
    have := h v hv
    linarith

lemma normalDirOK_zero (nd : ℤ) : normalDirOK nd 0 = false := by
  unfold normalDirOK
  simp

lemma passesNormalFilter_zero_dir (mw : Transform ℚ) (p : SelectionParams) (f : Face ℚ) :
    passesNormalFilter mw { p with normal_direction := 0 } f = true := by
  unfold passesNormalFilter
  dsimp only
  rw [if_pos rfl]

lemma selectedFlag_imp_ignore (mw : Transform ℚ) (p : SelectionParams) (nd : ℤ)
    (ext : ℚ) (f : Face ℚ) :
    selectedFlag mw { p with normal_direction := nd } ext f = true →
    selectedFlag mw { p with normal_direction := 0 } ext f = true := by
  unfold selectedFlag
  rw [Bool.and_eq_true, Bool.and_eq_true]
  intro h
  refine ⟨h.1, ?_⟩
  rw [passesNormalFilter_zero_dir]

lemma selectedFlag_zero_normal (mw : Transform ℚ) (p : SelectionParams) (nd : ℤ)
    (ext : ℚ) (f : Face ℚ) (hnd : nd ≠ 0)
    (h0 : (mw.linear.mulVec f.normal).nth p.coord = 0) :
    selectedFlag mw { p with normal_direction := nd } ext f = false := by
  unfold selectedFlag passesNormalFilter
  dsimp only
  rw [if_neg hnd, h0, normalDirOK_zero, Bool.and_false]

/-- C7: face selection is monotone in the tolerance: with criteria equal
except for tolerances `t1 ≤ t2` (both nonnegative), every face selected at
`t1` is also selected at `t2`. -/
theorem c7_tolerance_monotone (obj : Obj ℚ) (p : SelectionParams) (t1 t2 : ℚ)
    (h0 : 0 ≤ t1) (h12 : t1 ≤ t2)
    (obj1 obj2 : Obj ℚ) (n1 n2 : ℕ)
    (h1 : selectFacesByCriteria obj { p with epsilon := t1 } = Except.ok (obj1, n1))
    (h2 : selectFacesByCriteria obj { p with epsilon := t2 } = Except.ok (obj2, n2))
    (i : ℕ) (f1 f2 : Face ℚ)
    (hf1 : obj1.mesh.faces[i]? = some f1)
    (hf2 : obj2.mesh.faces[i]? = some f2)
    (hsel : f1.select = true) :
    f2.select = true := by
  rcases select_ok_cases obj _ obj1 n1 h1 with ⟨ext, hext⟩ | ⟨hA, hB⟩
  · have hext2 : extremum? obj { p with epsilon := t2 } = some ext := hext
    have e1 := select_flag_at obj _ ext hext obj1 n1 h1 i
    have e2 := select_flag_at obj _ ext hext2 obj2 n2 h2 i
    rw [hf1] at e1
    rw [hf2] at e2
    cases hf0 : obj.mesh.faces[i]? with
    | none =>
        rw [hf0] at e1
        simp at e1
    | some f0 =>
        rw [hf0] at e1 e2
        simp only [Option.map_some'] at e1 e2
        injection e1 with e1'
        injection e2 with e2'
        rw [e1'] at hsel
        rw [e2']
        change selectedFlag obj.matrix_world { p with epsilon := t1 } ext f0 = true at hsel
        change selectedFlag obj.matrix_world { p with epsilon := t2 } ext f0 = true
        unfold selectedFlag at hsel ⊢
        rw [Bool.and_eq_true] at hsel ⊢
        refine ⟨isCandidate_mono obj.matrix_world p t1 t2 h12 ext f0 hsel.1, ?_⟩
        have hsame : passesNormalFilter obj.matrix_world { p with epsilon := t2 } f0 =
            passesNormalFilter obj.matrix_world { p with epsilon := t1 } f0 := rfl
    -- the normal filter ignores the tolerance
        rw [hsame]
        exact hsel.2
  · rw [select_spec_other obj _ hA hB] at h1
    simp only [Except.ok.injEq, Prod.mk.injEq] at h1
    obtain ⟨ho, -⟩ := h1
    rw [← ho] at hf1
    rw [show ({ obj with mesh := { obj.mesh with faces :=
        (obj.mesh.faces.map (fun f => { f with select := false })) } } : Obj ℚ).mesh.faces =
        obj.mesh.faces.map (fun f => { f with select := false }) from rfl] at hf1
    rw [List.getElem?_map] at hf1
    cases hf0 : obj.mesh.faces[i]? with
    | none =>
        rw [hf0] at hf1
        simp at hf1
    | some f0 =>
        rw [hf0] at hf1
        simp only [Option.map_some'] at hf1
        injection hf1 with hf1'
        rw [← hf1'] at hsel
        exact absurd hsel (by simp)

/-- C8: for equal coordinate criteria, the `Ignore` normal filter
(`normal_direction = 0`) selects a superset of the union of the strict
positive and strict negative filters, and a face whose world-space normal
component on the chosen axis is exactly zero is rejected by both sign
filters but accepted by `Ignore` whenever its coordinate predicate holds. -/
theorem c8_normal_filter_superset (obj : Obj ℚ) (p : SelectionParams)
    (ndp ndn : ℤ) (hp : 0 < ndp) (hn : ndn < 0) (ext : ℚ)
    (hext : extremum? obj p = some ext)
    (objI objP objN : Obj ℚ) (nI nP nN : ℕ)
    (hI : selectFacesByCriteria obj { p with normal_direction := 0 } = Except.ok (objI, nI))
    (hP : selectFacesByCriteria obj { p with normal_direction := ndp } = Except.ok (objP, nP))
    (hN : selectFacesByCriteria obj { p with normal_direction := ndn } = Except.ok (objN, nN))
    (i : ℕ) (f0 fI fP fN : Face ℚ)
    (hf0 : obj.mesh.faces[i]? = some f0)
    (hfI : objI.mesh.faces[i]? = some fI)
    (hfP : objP.mesh.faces[i]? = some fP)
    (hfN : objN.mesh.faces[i]? = some fN) :
    ((fP.select = true ∨ fN.select = true) → fI.select = true) ∧
    ((obj.matrix_world.linear.mulVec f0.normal).nth p.coord = 0 →
      fP.select = false ∧ fN.select = false ∧
      (isCandidate obj.matrix_world p ext f0 = true → fI.select = true)) := by
  have hextI : extremum? obj { p with normal_direction := 0 } = some ext := hext
  have hextP : extremum? obj { p with normal_direction := ndp } = some ext := hext
  have hextN : extremum? obj { p with normal_direction := ndn } = some ext := hext
  have eI := select_flag_at obj _ ext hextI objI nI hI i
  have eP := select_flag_at obj _ ext hextP objP nP hP i
  have eN := select_flag_at obj _ ext hextN objN nN hN i
  rw [hfI, hf0] at eI
  rw [hfP, hf0] at eP
  rw [hfN, hf0] at eN
  simp only [Option.map_some'] at eI eP eN
  injection eI with eI'
  injection eP with eP'
  injection eN with eN'
  subst eI'
  subst eP'
  subst eN'
  constructor
  · intro h
    change selectedFlag obj.matrix_world { p with normal_direction := 0 } ext f0 = true
    rcases h with h | h
    · exact selectedFlag_imp_ignore obj.matrix_world p ndp ext f0 h
    · exact selectedFlag_imp_ignore obj.matrix_world p ndn ext f0 h
  · intro h0
    refine ⟨selectedFlag_zero_normal obj.matrix_world p ndp ext f0 (by omega) h0,
            selectedFlag_zero_normal obj.matrix_world p ndn ext f0 (by omega) h0, ?_⟩
    intro hcand
    change selectedFlag obj.matrix_world { p with normal_direction := 0 } ext f0 = true
    unfold selectedFlag
    rw [Bool.and_eq_true]
    exact ⟨hcand, passesNormalFilter_zero_dir obj.matrix_world p f0⟩

/-- Selection result shared by the C7 witness runs: top face selected. -/
def c7Res : Obj ℚ :=
  ⟨⟨[⟨0, 0, 2⟩, ⟨0, 0, 0⟩],
    [⟨[⟨0, 0, 2⟩], ⟨0, 0, 1⟩, true⟩, ⟨[⟨0, 0, 0⟩], ⟨0, 0, 1⟩, false⟩]⟩, idTransform⟩

/-- Witness for C7: tolerances 1/2 ≤ 1 on the two-face mesh; the top face
selected at tolerance 1/2 is also selected at tolerance 1. -/
theorem c7_tolerance_monotone_witness :
    selectFacesByCriteria witnessObj { maxZParams with epsilon := 1/2 } =
      Except.ok (c7Res, 1) ∧
    selectFacesByCriteria witnessObj { maxZParams with epsilon := 1 } =
      Except.ok (c7Res, 1) ∧
    c7Res.mesh.faces[0]? = some ⟨[⟨0, 0, 2⟩], ⟨0, 0, 1⟩, true⟩ ∧
    (⟨[⟨0, 0, 2⟩], ⟨0, 0, 1⟩, true⟩ : Face ℚ).select = true := by
  have h1 : selectFacesByCriteria witnessObj { maxZParams with epsilon := 1/2 } =
      Except.ok (c7Res, 1) := by
    norm_num [selectFacesByCriteria, checkFaceMax, normalDirOK, witnessObj, maxZParams,
      idTransform, topFaceW, lowFaceW, c7Res,
      Transform.apply, Mat3.mulVec, Vec3.dot, Vec3.add, Vec3.nth, List.max?, max_def]
  have h2 : selectFacesByCriteria witnessObj { maxZParams with epsilon := 1 } =
      Except.ok (c7Res, 1) := by
    norm_num [selectFacesByCriteria, checkFaceMax, normalDirOK, witnessObj, maxZParams,
      idTransform, topFaceW, lowFaceW, c7Res,
      Transform.apply, Mat3.mulVec, Vec3.dot, Vec3.add, Vec3.nth, List.max?, max_def]
  have hf : c7Res.mesh.faces[0]? = some ⟨[⟨0, 0, 2⟩], ⟨0, 0, 1⟩, true⟩ := rfl
  exact ⟨h1, h2, hf,
    c7_tolerance_monotone witnessObj maxZParams (1/2) 1 (by norm_num) (by norm_num)
      c7Res c7Res 1 1 h1 h2 0 _ _ hf hf rfl⟩

/-- A face at the top of the mesh whose normal points along +X, so its
world normal has Z component exactly zero. -/
def zFlatFace : Face ℚ := ⟨[⟨0, 0, 2⟩], ⟨1, 0, 0⟩, false⟩

/-- Witness mesh for C8. -/
def c8Obj : Obj ℚ := ⟨⟨[⟨0, 0, 2⟩, ⟨0, 0, 0⟩], [zFlatFace, lowFaceW]⟩, idTransform⟩

/-- C8 witness result under the Ignore filter: flat-normal face selected. -/
def c8ResI : Obj ℚ :=
  ⟨⟨[⟨0, 0, 2⟩, ⟨0, 0, 0⟩],
    [⟨[⟨0, 0, 2⟩], ⟨1, 0, 0⟩, true⟩, ⟨[⟨0, 0, 0⟩], ⟨0, 0, 1⟩, false⟩]⟩, idTransform⟩

/-- C8 witness result under either sign filter: nothing selected. -/
def c8ResPN : Obj ℚ :=
  ⟨⟨[⟨0, 0, 2⟩, ⟨0, 0, 0⟩],
    [⟨[⟨0, 0, 2⟩], ⟨1, 0, 0⟩, false⟩, ⟨[⟨0, 0, 0⟩], ⟨0, 0, 1⟩, false⟩]⟩, idTransform⟩

/-- Witness for C8: on a top face with world normal Z component zero, both
sign filters reject it while Ignore keeps it. -/
theorem c8_normal_filter_superset_witness :
    selectFacesByCriteria c8Obj { maxZParams with normal_direction := 0 } =
      Except.ok (c8ResI, 1) ∧
    selectFacesByCriteria c8Obj { maxZParams with normal_direction := 1 } =
      Except.ok (c8ResPN, 0) ∧
    selectFacesByCriteria c8Obj { maxZParams with normal_direction := -1 } =
      Except.ok (c8ResPN, 0) ∧
    (c8Obj.matrix_world.linear.mulVec zFlatFace.normal).nth maxZParams.coord = 0 ∧
    (⟨[⟨0, 0, 2⟩], ⟨1, 0, 0⟩, false⟩ : Face ℚ).select = false ∧
    (⟨[⟨0, 0, 2⟩], ⟨1, 0, 0⟩, true⟩ : Face ℚ).select = true := by
  have hext : extremum? c8Obj maxZParams = some 2 := by
    norm_num [extremum?, worldCoords, c8Obj, maxZParams, idTransform, zFlatFace, lowFaceW,
      Transform.apply, Mat3.mulVec, Vec3.dot, Vec3.add, Vec3.nth, List.max?, max_def]
  have hI : selectFacesByCriteria c8Obj { maxZParams with normal_direction := 0 } =
      Except.ok (c8ResI, 1) := by
    norm_num [selectFacesByCriteria, checkFaceMax, normalDirOK, c8Obj, maxZParams,
      idTransform, zFlatFace, lowFaceW, c8ResI,
      Transform.apply, Mat3.mulVec, Vec3.dot, Vec3.add, Vec3.nth, List.max?, max_def]
  have hP : selectFacesByCriteria c8Obj { maxZParams with normal_direction := 1 } =
      Except.ok (c8ResPN, 0) := by
    norm_num [selectFacesByCriteria, checkFaceMax, normalDirOK, c8Obj, maxZParams,
      idTransform, zFlatFace, lowFaceW, c8ResPN,
      Transform.apply, Mat3.mulVec, Vec3.dot, Vec3.add, Vec3.nth, List.max?, max_def]
  have hN : selectFacesByCriteria c8Obj { maxZParams with normal_direction := -1 } =
      Except.ok (c8ResPN, 0) := by
    norm_num [selectFacesByCriteria, checkFaceMax, normalDirOK, c8Obj, maxZParams,
      idTransform, zFlatFace, lowFaceW, c8ResPN,
      Transform.apply, Mat3.mulVec, Vec3.dot, Vec3.add, Vec3.nth, List.max?, max_def]
  have hzero : (c8Obj.matrix_world.linear.mulVec zFlatFace.normal).nth maxZParams.coord = 0 := by
    norm_num [c8Obj, maxZParams, idTransform, zFlatFace, Mat3.mulVec, Vec3.dot, Vec3.nth]
  have happ := c8_normal_filter_superset c8Obj maxZParams 1 (-1) (by norm_num) (by norm_num)
    2 hext c8ResI c8ResPN c8ResPN 1 0 0 hI hP hN 0
    zFlatFace ⟨[⟨0, 0, 2⟩], ⟨1, 0, 0⟩, true⟩
    ⟨[⟨0, 0, 2⟩], ⟨1, 0, 0⟩, false⟩ ⟨[⟨0, 0, 2⟩], ⟨1, 0, 0⟩, false⟩
    rfl rfl rfl rfl
  obtain ⟨hPf, hNf, hIf⟩ := happ.2 hzero
  have hcand : isCandidate c8Obj.matrix_world maxZParams 2 zFlatFace = true := by
    norm_num [isCandidate, c8Obj, maxZParams, idTransform, zFlatFace,
      Transform.apply, Mat3.mulVec, Vec3.dot, Vec3.add, Vec3.nth]
  exact ⟨hI, hP, hN, hzero, hPf, hIf hcand⟩

/-! ## UVProjector.project_from_view_manual

The per-vertex UV computation lives in ℝ because the source uses
`math.atan` / `math.tan`. `vert_view` is the vertex position in camera
space (`cam_matrix_world_inv @ obj.matrix_world @ vert.co`); the function
below is the body of the per-loop branch of the source. -/

/-- The per-vertex UV computation of `project_from_view_manual`: for a
perspective camera (`is_persp`), a vertex strictly in front of the camera
(`vert_view.z < 0`) gets the pinhole projection with
`fov = 2 atan(sensor_width / (2 focal_length))` and
`aspect = sensor_width / sensor_height`; a vertex at or behind the camera
plane gets the fallback `(0.5, 0.5)`; a non-perspective camera gets the
orthographic mapping with the fixed scale 10. The source binds
`fov`, `aspect_ratio`, `screen_x`, `screen_y` and `fov_factor` as locals;
they are pure and inlined here. -/
noncomputable def computeLoopUV (is_persp : Bool) (sensor_width sensor_height focal_length : ℝ)
    (vert_view : Vec3 ℝ) : ℝ × ℝ :=
  if is_persp then
    if vert_view.z < 0 then
      (0.5 + (vert_view.x / -vert_view.z) /
         (2 * Real.tan ((2 * Real.arctan (sensor_width / (2 * focal_length))) / 2) *
           (sensor_width / sensor_height)),
       0.5 + (vert_view.y / -vert_view.z) /
         (2 * Real.tan ((2 * Real.arctan (sensor_width / (2 * focal_length))) / 2)))
    else
      (0.5, 0.5)
  else
    (0.5 + vert_view.x / 10.0, 0.5 + vert_view.y / 10.0)

/-- The loop of `project_from_view_manual` over one face: each loop vertex
is processed independently, yielding one UV pair per vertex. -/
noncomputable def faceLoopUVs (is_persp : Bool) (sensor_width sensor_height focal_length : ℝ)
    (view_positions : List (Vec3 ℝ)) : List (ℝ × ℝ) :=
  view_positions.map (computeLoopUV is_persp sensor_width sensor_height focal_length)

/-- `UVProjector.project_from_view_manual` on the selected faces: returns
`False` (and writes nothing) when no face is selected, otherwise the UVs of
every loop of every selected face, each vertex first taken to world space
by `obj.matrix_world` and then to camera space by the inverse camera
matrix. -/
noncomputable def project_from_view_manual (mw cam_matrix_world_inv : Transform ℝ)
    (is_persp : Bool) (sensor_width sensor_height focal_length : ℝ)
    (faces : List (Face ℝ)) : Bool × List (List (ℝ × ℝ)) :=
  let selected_faces := faces.filter (fun f => f.select)
  if selected_faces.isEmpty then
    (false, [])
  else
    (true, selected_faces.map (fun f =>
      faceLoopUVs is_persp sensor_width sensor_height focal_length
        (f.verts.map (fun co => cam_matrix_world_inv.apply (mw.apply co)))))

lemma computeLoopUV_persp_front (sw sh fl : ℝ) (v : Vec3 ℝ) (hz : v.z < 0) :
    computeLoopUV true sw sh fl v =
      (0.5 + (v.x / -v.z) /
         (2 * Real.tan ((2 * Real.arctan (sw / (2 * fl))) / 2) * (sw / sh)),
       0.5 + (v.y / -v.z) /
         (2 * Real.tan ((2 * Real.arctan (sw / (2 * fl))) / 2))) := by
  unfold computeLoopUV
  rw [if_pos rfl, if_pos hz]

/-- C2: for a perspective camera, every vertex with camera-space z < 0 gets
`u = 0.5 + (x / −z) / (2 tan(fov/2) aspect)` and
`v = 0.5 + (y / −z) / (2 tan(fov/2))` with
`fov = 2 atan(sensorWidth / (2 focalLength))` and
`aspect = sensorWidth / sensorHeight`; a vertex on the optical axis gets
exactly (0.5, 0.5); and no clamping to [0,1] happens (the witness input at
the standard 36×24 sensor with 50mm lens yields u > 1). -/
theorem c2_perspective_projection_formula (sensor_width sensor_height focal_length : ℝ)
    (v : Vec3 ℝ) (hz : v.z < 0) :
    computeLoopUV true sensor_width sensor_height focal_length v =
      (0.5 + (v.x / -v.z) /
         (2 * Real.tan ((2 * Real.arctan (sensor_width / (2 * focal_length))) / 2) *
           (sensor_width / sensor_height)),
       0.5 + (v.y / -v.z) /
         (2 * Real.tan ((2 * Real.arctan (sensor_width / (2 * focal_length))) / 2))) ∧
    (v.x = 0 → v.y = 0 →
      computeLoopUV true sensor_width sensor_height focal_length v = (0.5, 0.5)) ∧
    1 < (computeLoopUV true 36 24 50 ⟨2, 0, -1⟩).1 := by
  refine ⟨computeLoopUV_persp_front _ _ _ v hz, ?_, ?_⟩
  · intro hx hy
    rw [computeLoopUV_persp_front _ _ _ v hz, hx, hy]
    norm_num
  · have hz1 : ((⟨2, 0, -1⟩ : Vec3 ℝ).z) < 0 := by norm_num
    rw [computeLoopUV_persp_front 36 24 50 _ hz1]
    have h1 : ((2 : ℝ) * Real.arctan (36 / (2 * 50))) / 2 = Real.arctan (36 / 100) := by
      rw [mul_div_cancel_left₀ _ (two_ne_zero)]
      norm_num
    show 1 < 0.5 + (((⟨2, 0, -1⟩ : Vec3 ℝ).x / -(⟨2, 0, -1⟩ : Vec3 ℝ).z) /
      (2 * Real.tan ((2 * Real.arctan (36 / (2 * 50))) / 2) * (36 / 24)))
    rw [h1, Real.tan_arctan]
    norm_num

/-- C3: for a perspective camera, a vertex with camera-space z ≥ 0 (at or
behind the camera plane) is assigned exactly the fallback UV (0.5, 0.5),
never a projected value; and the face is not rejected: the loop maps every
view position of the face independently to its own UV. -/
theorem c3_behind_camera_fallback (sensor_width sensor_height focal_length : ℝ)
    (v : Vec3 ℝ) (hz : 0 ≤ v.z) (vs : List (Vec3 ℝ)) :
    computeLoopUV true sensor_width sensor_height focal_length v = (0.5, 0.5) ∧
    (faceLoopUVs true sensor_width sensor_height focal_length vs).length = vs.length ∧
    (∀ i (hi : i < vs.length)
      (hi2 : i < (faceLoopUVs true sensor_width sensor_height focal_length vs).length),
      (faceLoopUVs true sensor_width sensor_height focal_length vs).get ⟨i, hi2⟩ =
        computeLoopUV true sensor_width sensor_height focal_length (vs.get ⟨i, hi⟩)) := by
  refine ⟨?_, ?_, ?_⟩
  · unfold computeLoopUV
    rw [if_pos rfl, if_neg (not_lt.mpr hz)]
  · unfold faceLoopUVs
    exact List.length_map _ _
  · intro i hi hi2
    unfold faceLoopUVs
    simp [List.get_eq_getElem]

/-- Witness for C2: the on-axis vertex at depth 1 in front of a 36×24mm,
50mm-lens perspective camera maps to (0.5, 0.5). -/
theorem c2_perspective_projection_formula_witness :
    ((-1 : ℝ) < 0) ∧
    computeLoopUV true 36 24 50 ⟨0, 0, -1⟩ = (0.5, 0.5) := by
  have hz : ((⟨0, 0, -1⟩ : Vec3 ℝ).z) < 0 := by norm_num
  exact ⟨by norm_num, (c2_perspective_projection_formula 36 24 50 ⟨0, 0, -1⟩ hz).2.1 rfl rfl⟩

/-- Witness for C3: a vertex behind the camera (z = 3) gets the fallback. -/
theorem c3_behind_camera_fallback_witness :
    ((0 : ℝ) ≤ 3) ∧
    computeLoopUV true 36 24 50 ⟨1, 2, 3⟩ = (0.5, 0.5) := by
  have hz : (0 : ℝ) ≤ ((⟨1, 2, 3⟩ : Vec3 ℝ).z) := by norm_num
  exact ⟨by norm_num, (c3_behind_camera_fallback 36 24 50 ⟨1, 2, 3⟩ hz []).1⟩

/-! ## Pipeline driver (TextureMapper / main)

The driver's control flow is modelled as an event trace. External Blender
state — the file system, the imported scene, the outcome of the Blender
operators invoked inside one camera's processing — is abstracted into an
environment of outcomes, because it lives outside the script; the
branching structure below follows `TextureMapper.validate_configs`,
`TextureMapper.setup_scene`, `TextureMapper.process_camera_view`,
`TextureMapper.process` and `main` line by line. -/

/-- Observable scene/mesh effects of one run, in order of occurrence. -/
inductive Event where
  | deleteAllObjects
  | importPLY (path : String)
  | addCamera (name : String)
  | createUVLayer
  | selectFaces (cam : String)
  | setupMaterial (cam : String)
  | assignMaterialSlot (cam : String)
  | projectUV (cam : String)
  | modeSetObject
  | exportGLB (path : String)
deriving DecidableEq

/-- The fields of `CameraConfig` the driver's control flow reads. The
geometric fields (`location`, `rotation`, `selection_params`) only feed the
abstracted Blender outcomes. -/
structure CameraConfigCtl where
  name : String
  texture_path : String
  material_index : ℕ
deriving DecidableEq

/-- Abstracted outcome of the Blender-dependent steps of one call to
`process_camera_view`: what `select_faces_by_criteria` does (raises, or
returns a count), and whether the material setup, the slot assignment or
the UV projection raise. A texture-load failure is recorded separately: it
is caught inside `setup_material_with_texture` and never escapes. -/
structure CamOutcome where
  selectResult : Except Unit ℕ
  textureLoadFails : Bool
  setupMaterialRaises : Bool
  assignSlotRaises : Bool
  projectRaises : Bool

/-- Run environment: which paths exist on disk, whether a mesh object is
found after the PLY import, whether the imported mesh already has a UV
layer, and the outcome of camera `i`'s processing. -/
structure PipelineEnv where
  fileExists : String → Bool
  sceneHasMesh : Bool
  hasUVLayer : Bool
  outcome : ℕ → CamOutcome

/-- `CameraConfig.validate`: the texture path must exist. -/
def configValidate (env : PipelineEnv) (c : CameraConfigCtl) : Bool :=
  env.fileExists c.texture_path

/-- `TextureMapper.validate_configs`: the input mesh file must exist and
every camera config must validate. -/
def validateConfigs (env : PipelineEnv) (input_ply : String)
    (configs : List CameraConfigCtl) : Bool :=
  env.fileExists input_ply && configs.all (configValidate env)

/-- `TextureMapper.setup_scene`: delete all objects, import the PLY, add
one camera per config, then look for a mesh object; if one is found,
create a UV layer when absent and succeed, otherwise fail. -/
def setupScene (env : PipelineEnv) (input_ply : String)
    (configs : List CameraConfigCtl) : Bool × List Event :=
  let evs := [Event.deleteAllObjects, Event.importPLY input_ply] ++
    configs.map (fun c => Event.addCamera c.name)
  if env.sceneHasMesh then
    (true, evs ++ (if env.hasUVLayer then [] else [Event.createUVLayer]))
  else
    (false, evs)

/-- `TextureMapper.process_camera_view` for one camera: select faces (an
exception there is caught by the surrounding `try` and yields `False`
after only the selection step ran); a zero count returns `False`; then
material setup, material-slot assignment and UV projection run in that
order, each abandoning the camera (via the `except` clause) if it raises.
The scene camera always resolves because `setup_scene` added a camera for
every config name. -/
def processCameraView (o : CamOutcome) (c : CameraConfigCtl) : Bool × List Event :=
  match o.selectResult with
  | .error _ => (false, [Event.selectFaces c.name])
  | .ok selected_count =>
    if selected_count = 0 then
      (false, [Event.selectFaces c.name])
    else if o.setupMaterialRaises then
      (false, [Event.selectFaces c.name, Event.setupMaterial c.name])
    else if o.assignSlotRaises then
      (false, [Event.selectFaces c.name, Event.setupMaterial c.name,
               Event.assignMaterialSlot c.name])
    else if o.projectRaises then
      (false, [Event.selectFaces c.name, Event.setupMaterial c.name,
               Event.assignMaterialSlot c.name, Event.projectUV c.name])
    else
      (true, [Event.selectFaces c.name, Event.setupMaterial c.name,
              Event.assignMaterialSlot c.name, Event.projectUV c.name])

/-- The per-camera loop of `TextureMapper.process`: each config is
processed in order with its outcome; the boolean result of
`process_camera_view` is discarded by the loop. -/
def processAllCameras (env : PipelineEnv) (configs : List CameraConfigCtl)
    (i : ℕ) : List Event :=
  match configs with
  | [] => []
  | c :: rest =>
      (processCameraView (env.outcome i) c).2 ++ processAllCameras env rest (i + 1)

/-- `TextureMapper.process`: validate (returning `False` with no scene
mutation on failure), set up the scene, process every camera, switch back
to object mode and export; the export collaborator is external and modelled
as succeeding. -/
def process (env : PipelineEnv) (input_ply : String)
    (configs : List CameraConfigCtl) (output_glb : String) : Bool × List Event :=
  if validateConfigs env input_ply configs = false then
    (false, [])
  else
    match setupScene env input_ply configs with
    | (false, evs) => (false, evs)
    | (true, evs) =>
        (true, evs ++ processAllCameras env configs 0 ++
          [Event.modeSetObject, Event.exportGLB output_glb])

/-- `main`: exit code 0 when `TextureMapper.process` returns `True`, 1
otherwise. -/
def mainExitCode (env : PipelineEnv) (input_ply : String)
    (configs : List CameraConfigCtl) (output_glb : String) : ℕ :=
  if (process env input_ply configs output_glb).1 then 0 else 1

/-- The selection step runs first in every branch of one camera's
processing. -/
lemma selectFaces_mem_pcv (o : CamOutcome) (c : CameraConfigCtl) :
    Event.selectFaces c.name ∈ (processCameraView o c).2 := by
  obtain ⟨sr, tl, smr, asr, pr⟩ := o
  cases sr with
  | error e => simp [processCameraView]
  | ok n =>
      by_cases h0 : n = 0 <;> cases smr <;> cases asr <;> cases pr <;>
        simp [processCameraView, h0]

lemma selectFaces_mem_processAllCameras (env : PipelineEnv)
    (configs : List CameraConfigCtl) (i : ℕ) (c : CameraConfigCtl)
    (hc : c ∈ configs) :
    Event.selectFaces c.name ∈ processAllCameras env configs i := by
  induction configs generalizing i with
  | nil => cases hc
  | cons a rest ih =>
      unfold processAllCameras
      rcases List.mem_cons.mp hc with rfl | hc'
      · exact List.mem_append_left _ (selectFaces_mem_pcv _ _)
      · exact List.mem_append_right _ (ih (i + 1) hc')

/-- Counterexample to C4 as stated: in a successfully processed camera the
trace is select, material setup, slot assignment, then UV projection —
material binding happens inside the first three steps and the projection
comes last, not before the binding. -/
theorem c4_counterexample :
    (processCameraView ⟨Except.ok 1, false, false, false, false⟩
        ⟨"Cam", "tex.png", 0⟩).2 =
      [Event.selectFaces "Cam", Event.setupMaterial "Cam",
       Event.assignMaterialSlot "Cam", Event.projectUV "Cam"] ∧
    Event.assignMaterialSlot "Cam" ∈
      ((processCameraView ⟨Except.ok 1, false, false, false, false⟩
        ⟨"Cam", "tex.png", 0⟩).2.take 3) ∧
    Event.projectUV "Cam" ∉
      ((processCameraView ⟨Except.ok 1, false, false, false, false⟩
        ⟨"Cam", "tex.png", 0⟩).2.take 3) ∧
    ((processCameraView ⟨Except.ok 1, false, false, false, false⟩
        ⟨"Cam", "tex.png", 0⟩).2)[3]? = some (Event.projectUV "Cam") := by
  decide

/-- C4 amended: for every camera whose processing completes, the per-camera
steps run in the order Select, then Bind (material setup and material-slot
assignment), then Project — the UV projection runs after material binding. -/
theorem c4_select_bind_project_order (o : CamOutcome) (c : CameraConfigCtl)
    (h : (processCameraView o c).1 = true) :
    (processCameraView o c).2 =
      [Event.selectFaces c.name, Event.setupMaterial c.name,
       Event.assignMaterialSlot c.name, Event.projectUV c.name] := by
  obtain ⟨sr, tl, smr, asr, pr⟩ := o
  cases sr with
  | error e => simp [processCameraView] at h
  | ok n =>
      by_cases h0 : n = 0 <;> cases smr <;> cases asr <;> cases pr <;>
        simp [processCameraView, h0] at h ⊢

/-- Witness for the amended C4: a camera with two selected faces (and a
failing texture load, which changes nothing) completes with the
select–bind–project trace. -/
theorem c4_select_bind_project_order_witness :
    (processCameraView ⟨Except.ok 2, true, false, false, false⟩
        ⟨"Top", "t.png", 1⟩).1 = true ∧
    (processCameraView ⟨Except.ok 2, true, false, false, false⟩
        ⟨"Top", "t.png", 1⟩).2 =
      [Event.selectFaces "Top", Event.setupMaterial "Top",
       Event.assignMaterialSlot "Top", Event.projectUV "Top"] :=
  ⟨by decide, c4_select_bind_project_order _ _ (by decide)⟩

/-- C5: if validation fails — the input mesh file does not exist, or some
configured camera's texture path does not exist — the run performs no scene
or mesh mutation at all (empty event trace, so no deletion, import, camera
creation, UV or material write) and the process exit code is 1. -/
theorem c5_validation_failure_aborts (env : PipelineEnv)
    (input_ply output_glb : String) (configs : List CameraConfigCtl)
    (h : env.fileExists input_ply = false ∨
      ∃ c ∈ configs, env.fileExists c.texture_path = false) :
    process env input_ply configs output_glb = (false, []) ∧
    mainExitCode env input_ply configs output_glb = 1 := by
  have hv : validateConfigs env input_ply configs = false := by
    unfold validateConfigs
    rcases h with h | ⟨c, hc, hcf⟩
    · simp [h]
    · have hall : configs.all (configValidate env) = false := by
        rw [List.all_eq_false]
        exact ⟨c, hc, by simp [configValidate, hcf]⟩
      simp [hall]
  have hproc : process env input_ply configs output_glb = (false, []) := by
    unfold process
    rw [if_pos hv]
  refine ⟨hproc, ?_⟩
  unfold mainExitCode
  rw [hproc]
  rfl

/-- C6: if validation passes and a mesh object is found during scene setup,
then — for every assignment of per-camera outcomes, i.e. regardless of how
many cameras fail with an empty selection, a texture-load failure or an
exception inside their processing — the run processes every configured
camera, reaches the export step, returns overall success and exits with
code 0. -/
theorem c6_per_camera_failures_never_abort (env : PipelineEnv)
    (input_ply output_glb : String) (configs : List CameraConfigCtl)
    (hv : validateConfigs env input_ply configs = true)
    (hm : env.sceneHasMesh = true) :
    (process env input_ply configs output_glb).1 = true ∧
    mainExitCode env input_ply configs output_glb = 0 ∧
    Event.exportGLB output_glb ∈ (process env input_ply configs output_glb).2 ∧
    ∀ c ∈ configs,
      Event.selectFaces c.name ∈ (process env input_ply configs output_glb).2 := by
  have hvne : ¬(validateConfigs env input_ply configs = false) := by
    rw [hv]
    simp
  have hsetup : setupScene env input_ply configs =
      (true, ([Event.deleteAllObjects, Event.importPLY input_ply] ++
        configs.map (fun c => Event.addCamera c.name)) ++
        (if env.hasUVLayer then [] else [Event.createUVLayer])) := by
    unfold setupScene
    rw [if_pos hm]
  have hproc : process env input_ply configs output_glb =
      (true, (([Event.deleteAllObjects, Event.importPLY input_ply] ++
        configs.map (fun c => Event.addCamera c.name)) ++
        (if env.hasUVLayer then [] else [Event.createUVLayer])) ++
        processAllCameras env configs 0 ++
        [Event.modeSetObject, Event.exportGLB output_glb]) := by
    unfold process
    rw [if_neg hvne, hsetup]
  refine ⟨by rw [hproc], ?_, ?_, ?_⟩
  · unfold mainExitCode
    rw [hproc]
    rfl
  · rw [hproc]
    simp
  · intro c hc
    rw [hproc]
    have := selectFaces_mem_processAllCameras env configs 0 c hc
    simp only [List.mem_append]
    exact Or.inl (Or.inr this)

/-- Env for the C5 witness: no file exists. -/
def noFilesEnv : PipelineEnv :=
  ⟨fun _ => false, true, true, fun _ => ⟨Except.ok 1, false, false, false, false⟩⟩

/-- Witness for C5: with a missing input file the trace is empty and the
exit code is 1. -/
theorem c5_validation_failure_aborts_witness :
    (noFilesEnv.fileExists "in.ply" = false ∨
      ∃ c ∈ [(⟨"Cam", "tex.png", 0⟩ : CameraConfigCtl)],
        noFilesEnv.fileExists c.texture_path = false) ∧
    process noFilesEnv "in.ply" [⟨"Cam", "tex.png", 0⟩] "out.glb" = (false, []) ∧
    mainExitCode noFilesEnv "in.ply" [⟨"Cam", "tex.png", 0⟩] "out.glb" = 1 := by
  have h : noFilesEnv.fileExists "in.ply" = false ∨
      ∃ c ∈ [(⟨"Cam", "tex.png", 0⟩ : CameraConfigCtl)],
        noFilesEnv.fileExists c.texture_path = false := Or.inl rfl
  have happ := c5_validation_failure_aborts noFilesEnv "in.ply" "out.glb"
    [⟨"Cam", "tex.png", 0⟩] h
  exact ⟨h, happ.1, happ.2⟩

/-- Env for the C6 witness: every file exists, the mesh imports fine, but
every camera's selection raises. -/
def allFilesEnv : PipelineEnv :=
  ⟨fun _ => true, true, true, fun _ => ⟨Except.error (), false, false, false, false⟩⟩

/-- Witness for C6: with a camera whose selection raises, the run still
exports and exits 0. -/
theorem c6_per_camera_failures_never_abort_witness :
    validateConfigs allFilesEnv "in.ply" [⟨"Cam", "tex.png", 0⟩] = true ∧
    (process allFilesEnv "in.ply" [⟨"Cam", "tex.png", 0⟩] "out.glb").1 = true ∧
    mainExitCode allFilesEnv "in.ply" [⟨"Cam", "tex.png", 0⟩] "out.glb" = 0 ∧
    Event.exportGLB "out.glb" ∈
      (process allFilesEnv "in.ply" [⟨"Cam", "tex.png", 0⟩] "out.glb").2 := by
  have hv : validateConfigs allFilesEnv "in.ply" [⟨"Cam", "tex.png", 0⟩] = true := rfl
  have happ := c6_per_camera_failures_never_abort allFilesEnv "in.ply" "out.glb"
    [⟨"Cam", "tex.png", 0⟩] hv rfl
  exact ⟨hv, happ.1, happ.2.1, happ.2.2.1⟩
